import Mathlib

/-!
Shallow embedding of the kids-chatbot backend core (query classification,
retrieval/rerank pipeline, session store, weather fallback, map markers),
translated from `src/backend`, together with theorems settling the
specification claims about it.

Conventions of the embedding:
* Python strings are Lean `String`s; `needle in hay` is substring search on
  the character lists; `len` is `String.length` (both count characters).
* Python floats are modelled as `ℚ` (no claim here depends on IEEE rounding;
  `round(x, n)` is modelled with the mathematical `round`, which differs from
  Python only on exact half-way ties).
* Python dicts used as key/value stores are modelled as `String → Option _`
  maps; dicts with a fixed key set are modelled as structures with `Option`
  fields (a missing key is `none`, and reading it with `d[k]` raises, i.e.
  produces `Except.error`).
* Code that can raise is modelled in `Except String`; a `try/except` block
  becomes a `match` on that `Except` value.
-/

/-- Boolean list-prefix test. -/
def prefixB : List Char → List Char → Bool
  | [], _ => true
  | _ :: _, [] => false
  | a :: as, b :: bs => a = b && prefixB as bs

/-- Boolean list-infix test (contiguous subsequence). -/
def infixB (needle : List Char) : List Char → Bool
  | [] => prefixB needle []
  | c :: rest => prefixB needle (c :: rest) || infixB needle rest

/-- Python `needle in hay` substring test. -/
def substrB (needle hay : String) : Bool :=
  infixB needle.data hay.data

/-- Python `str.lower` (ASCII letters; the Korean keywords are unaffected). -/
def lowerStr (s : String) : String :=
  String.mk (s.data.map Char.toLower)

/-- Python `str.strip()`: drop whitespace from both ends. -/
def trimS (s : String) : String :=
  String.mk (((s.data.dropWhile Char.isWhitespace).reverse.dropWhile
    Char.isWhitespace).reverse)

/-- One chat message, `{"role": ..., "content": ...}`. -/
structure Msg where
  role : String
  content : String
deriving DecidableEq, Repr

namespace SessionManager

/-- The module-level mutable dicts `_sessions` and `_location_cache` of
`utils/session_manager.py`, modelled as an explicit state value. -/
structure SessionState where
  sessions : String → Option (List Msg)
  location_cache : String → Option String

/-- `get_history` (session_manager.py line 21): `_sessions.get(id, [])`. -/
def get_history (st : SessionState) (conversation_id : String) : List Msg :=
  (st.sessions conversation_id).getD []

/-- `save_history` (line 36): `_sessions[id] = messages`. -/
def save_history (st : SessionState) (conversation_id : String)
    (messages : List Msg) : SessionState :=
  { st with sessions := fun k =>
      if k = conversation_id then some messages else st.sessions k }

/-- `add_message` (line 48). -/
def add_message (st : SessionState) (conversation_id role content : String) :
    SessionState :=
  save_history st conversation_id
    (get_history st conversation_id ++ [⟨role, content⟩])

/-- `clear_history` (line 62): `del` guarded by `in`, on both dicts; a
conditional delete of a key is the same map as unconditionally erasing it. -/
def clear_history (st : SessionState) (conversation_id : String) :
    SessionState :=
  { sessions := fun k => if k = conversation_id then none else st.sessions k,
    location_cache := fun k =>
      if k = conversation_id then none else st.location_cache k }

/-- `get_cached_location` (line 77). -/
def get_cached_location (st : SessionState) (conversation_id : String) :
    Option String :=
  st.location_cache conversation_id

/-- `save_cached_location` (line 90). -/
def save_cached_location (st : SessionState) (conversation_id location : String) :
    SessionState :=
  { st with location_cache := fun k =>
      if k = conversation_id then some location else st.location_cache k }

/-- An empty store, for concrete instantiations. -/
def emptyState : SessionState :=
  { sessions := fun _ => none, location_cache := fun _ => none }

end SessionManager

namespace AgentService

/-- `emotion_keywords` of `agent_service.analyze_user_query` (line 64). -/
def emotion_keywords : List String :=
  ["고마워", "감사", "좋아", "최고", "완벽", "훌륭",
   "thank", "thanks", "great", "awesome", "perfect"]

/-- The action keywords excluded from the emotion branch (line 81). -/
def action_keywords : List String :=
  ["추천", "찾아", "어디", "뭐해", "갈만한"]

/-- `cities` of `extract_location` (line 93). -/
def cities : List String :=
  ["서울", "부산", "대구", "인천", "광주", "대전", "울산", "세종",
   "경기", "강원", "충북", "충남", "전북", "전남", "경북", "경남", "제주"]

/-- `districts` of `extract_location` (line 99). -/
def districts : List String :=
  ["강남", "서초", "송파", "강동", "마포", "용산", "성동", "광진",
   "중구", "종로", "은평", "서대문", "동대문", "성북", "강북", "도봉",
   "노원", "동작", "관악", "금천", "구로", "영등포", "양천", "강서"]

/-- `extract_location` (agent_service.py line 90): first matching city,
optionally paired with the first matching district; a district alone is
prefixed with the default city. -/
def extract_location (text : String) : Option String :=
  match cities.find? (fun c => substrB c text) with
  | some city =>
    match districts.find? (fun d => substrB d text) with
    | some district => some (city ++ " " ++ district)
    | none => some city
  | none =>
    match districts.find? (fun d => substrB d text) with
    | some district => some ("서울 " ++ district)
    | none => none

/-- `extract_location_from_history` (line 120): scan the last 10 messages,
most recent first, user turns only, returning the first extracted location. -/
def extract_location_from_history (history : List Msg) : Option String :=
  ((history.drop (history.length - 10)).reverse).findSome? (fun m =>
    if m.role = "user" then extract_location m.content else none)

/-- Match exactly `n` decimal digits at the head, returning them with the
rest of the input. -/
def takeDigits : Nat → List Char → Option (List Char × List Char)
  | 0, rest => some ([], rest)
  | _ + 1, [] => none
  | n + 1, c :: rest =>
    if c.isDigit then
      (takeDigits n rest).map (fun p => (c :: p.1, p.2))
    else none

/-- Match the regex `\d{4}-\d{2}-\d{2}` at the current position. -/
def isoMatchAt (cs : List Char) : Option (List Char) :=
  match takeDigits 4 cs with
  | none => none
  | some (a, r1) =>
    match r1 with
    | '-' :: r2 =>
      match takeDigits 2 r2 with
      | none => none
      | some (b, r3) =>
        match r3 with
        | '-' :: r4 =>
          match takeDigits 2 r4 with
          | none => none
          | some (c, _) => some (a ++ '-' :: b ++ '-' :: c)
        | _ => none
    | _ => none

/-- `re.search` for the ISO date pattern: leftmost match. -/
def findIso : List Char → Option String
  | [] => none
  | c :: rest =>
    match isoMatchAt (c :: rest) with
    | some m => some (String.mk m)
    | none => findIso rest

/-- `date_keywords` of `extract_date` (line 133), in insertion order. -/
def date_keywords : List (String × String) :=
  [("오늘", "today"), ("내일", "tomorrow"), ("모레", "day_after_tomorrow"),
   ("이번주", "this_week"), ("다음주", "next_week"), ("주말", "weekend")]

/-- `extract_date` (agent_service.py line 131): keyword table first, then the
`YYYY-MM-DD` regex. -/
def extract_date (text : String) : Option String :=
  match date_keywords.findSome? (fun p =>
      if substrB p.1 text then some p.2 else none) with
  | some v => some v
  | none => findIso text.data

/-- The analysis record returned by `analyze_user_query` (line 53). -/
structure QueryAnalysis where
  type : String
  location : Option String
  date : Option String
  has_emotion : Bool
deriving DecidableEq, Repr

/-- `analyze_user_query` (agent_service.py line 49): emotion branch first
(note: no length condition), then location from the query with history
fallback (no cached-location fallback exists here), else ready. -/
def analyze_user_query (query : String) (conversation_history : List Msg) :
    QueryAnalysis :=
  let query_lower := lowerStr query
  let has_emotion := emotion_keywords.any (fun k => substrB k query_lower)
  let location :=
    match extract_location query with
    | some l => some l
    | none => extract_location_from_history conversation_history
  let date_info := extract_date query
  if has_emotion && !(action_keywords.any (fun k => substrB k query_lower)) then
    ⟨"emotion", none, none, true⟩
  else if location.isNone then
    ⟨"need_location", none, date_info, false⟩
  else
    ⟨"ready", location, date_info, false⟩

end AgentService

namespace Supervisor

/-- `SupervisorService.LOCATION_KEYWORDS` (supervisor_service.py line 21),
kept in source order, duplicate entry included. -/
def LOCATION_KEYWORDS : List String :=
  ["서울", "강남", "강북", "강서", "강동", "서초", "송파", "광진",
   "마포", "용산", "성동", "동대문", "성북", "도봉", "노원", "은평",
   "종로", "중구", "중랑", "양천", "영등포", "구로", "금천", "관악",
   "동작", "서대문", "광진",
   "수원", "성남", "고양", "용인", "부천", "안산", "안양", "남양주",
   "화성", "평택", "의정부", "시흥", "파주", "김포", "광명", "광주",
   "군포", "오산", "이천", "양주", "안성", "구리", "포천", "의왕",
   "하남", "여주", "양평", "동두천", "과천", "가평", "연천",
   "부산", "인천", "대구", "대전", "광주", "울산", "세종",
   "제주", "춘천", "원주", "강릉", "청주", "천안", "전주", "포항",
   "창원", "진주", "순천", "여수", "목포"]

/-- `SupervisorService.EMOTION_KEYWORDS` (line 40). -/
def EMOTION_KEYWORDS : List String :=
  ["고마워", "감사", "좋아", "괜찮아", "네", "응", "알겠어", "완벽",
   "최고", "멋져", "훌륭", "great", "thanks", "thank you", "ok", "okay"]

/-- `SupervisorService.WEATHER_KEYWORDS` (line 46). -/
def WEATHER_KEYWORDS : List String :=
  ["날씨", "기온", "온도", "맑", "흐림", "비", "눈", "바람",
   "춥", "덥", "따뜻", "시원", "weather"]

/-- `SupervisorService.MAP_KEYWORDS` (line 52). -/
def MAP_KEYWORDS : List String :=
  ["지도", "위치", "어디", "찾아가", "가는법", "map", "location"]

/-- `_is_emotional_response` (line 126): short query (under 20 characters)
containing any emotion keyword; note there is no action-keyword exclusion. -/
def is_emotional_response (query : String) : Bool :=
  decide (query.length < 20) &&
    EMOTION_KEYWORDS.any (fun k => substrB k query)

/-- `_extract_location` (line 135): first location keyword appearing in the
query; the relative-location branch ("근처", "주변", ...) also returns `None`,
so it is observationally the plain keyword scan. -/
def sup_extract_location (query : String) : Option String :=
  LOCATION_KEYWORDS.find? (fun l => substrB l query)

/-- Regex building block: match a literal, then continue with `k` (used to
compile the date patterns of `_extract_date`). -/
def litThen (lit : String) (k : List Char → Option (List Char))
    (cs : List Char) : Option (List Char) :=
  if prefixB lit.data cs then
    (k (cs.drop lit.length)).map (fun t => lit.data ++ t)
  else none

/-- Regex building block for `\s?` (greedy, with backtracking). -/
def wsOptThen (k : List Char → Option (List Char)) (cs : List Char) :
    Option (List Char) :=
  match cs with
  | c :: rest =>
    if c.isWhitespace then
      match k rest with
      | some t => some (c :: t)
      | none => k cs
    else k cs
  | [] => k cs

/-- Regex building block: exactly `n` digits, then continue with `k`. -/
def digitsThen (n : Nat) (k : List Char → Option (List Char))
    (cs : List Char) : Option (List Char) :=
  match AgentService.takeDigits n cs with
  | some (d, rest) => (k rest).map (fun t => d ++ t)
  | none => none

/-- Regex building block for `\d{1,2}` (greedy, with backtracking). -/
def d12Then (k : List Char → Option (List Char)) (cs : List Char) :
    Option (List Char) :=
  match digitsThen 2 k cs with
  | some r => some r
  | none => digitsThen 1 k cs

/-- Match end: the empty continuation. -/
def matchEnd (_ : List Char) : Option (List Char) :=
  some []

/-- A literal pattern on its own. -/
def litPat (lit : String) : List Char → Option (List Char) :=
  litThen lit matchEnd

/-- The pattern `(월|화|수|목|금|토|일)요일`. -/
def weekdayPat (cs : List Char) : Option (List Char) :=
  match cs with
  | c :: rest =>
    if ['월', '화', '수', '목', '금', '토', '일'].contains c then
      (litPat "요일" rest).map (fun t => c :: t)
    else none
  | [] => none

/-- The pattern `\d{1,2}월\s?\d{1,2}일`. -/
def monthDayPat : List Char → Option (List Char) :=
  d12Then (litThen "월" (wsOptThen (d12Then (litThen "일" matchEnd))))

/-- The pattern `\d{4}-\d{2}-\d{2}` (same matcher as the agent service's). -/
def isoPat (cs : List Char) : Option (List Char) :=
  AgentService.isoMatchAt cs

/-- `re.search`: try the matcher at each position, leftmost match wins. -/
def searchPat (m : List Char → Option (List Char)) :
    List Char → Option (List Char)
  | [] => m []
  | c :: rest =>
    match m (c :: rest) with
    | some t => some t
    | none => searchPat m rest

/-- `date_patterns` of `_extract_date` (line 155), in source order. -/
def date_patterns : List (List Char → Option (List Char)) :=
  [litPat "오늘", litPat "내일", litPat "모레",
   litThen "이번" (wsOptThen (litThen "주" matchEnd)),
   litThen "다음" (wsOptThen (litThen "주" matchEnd)),
   weekdayPat, monthDayPat, isoPat]

/-- `_extract_date` (supervisor_service.py line 152): first pattern that
matches anywhere in the query, returning the matched text. -/
def sup_extract_date (query : String) : Option String :=
  date_patterns.findSome? (fun m =>
    (searchPat m query.data).map String.mk)

/-- `_select_tools` (supervisor_service.py line 175): a map keyword short-
circuits to just `map`; otherwise rag when a location is known, weather
prepended when a weather keyword or date is present, map appended after rag. -/
def select_tools (query : String) (location : Option String)
    (date : Option String) : List String :=
  if MAP_KEYWORDS.any (fun k => substrB k query) then ["map"]
  else
    let tools := if location.isSome then ["rag"] else []
    let needs_weather :=
      WEATHER_KEYWORDS.any (fun k => substrB k query) || date.isSome
    let tools := if needs_weather && location.isSome
      then "weather" :: tools else tools
    if tools.contains "rag" then tools ++ ["map"] else tools

/-- The analysis record of `SupervisorService.analyze_query` (line 74); the
`reasoning` log string of the source is omitted as pure logging. -/
structure SupAnalysis where
  location : Option String
  date : Option String
  selected_tools : List String
  needs_location : Bool
deriving DecidableEq, Repr

/-- `analyze_query` (supervisor_service.py line 60): emotion first, then
location from the query with `current_location` fallback (note: the
`conversation_context` parameter is never consulted), then date and tools. -/
def analyze_query (user_query : String) (_conversation_context : List Msg)
    (current_location : Option String) : SupAnalysis :=
  let query_lower := trimS (lowerStr user_query)
  if is_emotional_response query_lower then
    ⟨current_location, none, [], false⟩
  else
    let location :=
      match sup_extract_location user_query with
      | some l => some l
      | none => current_location
    let date := sup_extract_date user_query
    if location.isNone then
      ⟨none, date, [], true⟩
    else
      ⟨location, date, select_tools user_query location date, false⟩

/-- The location-resolution order exactly as claim C4 words it — current
query first, then the most recent ten turns of history most-recent-first,
then the cached location; written from the claim for comparison with
`analyze_query` (which never consults the history). -/
def claim_resolve_location (query : String) (history : List Msg)
    (cachedLocation : Option String) : Option String :=
  match sup_extract_location query with
  | some l => some l
  | none =>
    match ((history.drop (history.length - 10)).reverse).findSome?
        (fun m => sup_extract_location m.content) with
    | some l => some l
    | none => cachedLocation

end Supervisor

/-- `round(x, 4)` on ℚ (Python rounds half to even; these differ only on
exact half-way ties, which no claim exercises). -/
def round4 (q : ℚ) : ℚ :=
  (round (q * 10000) : ℤ) / 10000

namespace RagService

/-- The RAG-relevant fields of `utils/config.Settings` (config.py line 34). -/
structure RagSettings where
  TOP_K : Nat
  RERANK_TOP_K : Nat
  MMR_TOP_K : Nat
  SIMILARITY_THRESHOLD : ℚ
deriving Repr

/-- The default values of those settings (config.py lines 35-39). -/
def defaultSettings : RagSettings :=
  ⟨30, 10, 5, (3 : ℚ) / 10⟩

/-- The metadata keys the embedded code reads: `facility_name` and `Name`
(a missing key is `none`). -/
structure Meta where
  facility_name : Option String
  nameKey : Option String
deriving DecidableEq, Repr

/-- One formatted search result (the dict built in `_format_results`);
`score` is added only by reranking. -/
structure Doc where
  content : String
  metadata : Meta
  distance : ℚ
  similarity : ℚ
  score : Option ℚ
deriving DecidableEq, Repr

/-- The inner result lists of a ChromaDB response `res` (the code reads
`res["documents"][0]` etc.; an absent/empty response is modelled by empty
`documents`). -/
structure RawRes where
  documents : List String
  metadatas : List Meta
  distances : List ℚ
deriving Repr

/-- Conjunctive metadata filters (`where=` argument). -/
def Filters := List (String × String)

/-- The ambient state of a `RAGService` instance: its settings, the vector
client's `search` (which can raise), and the optional cross-encoder's
`predict` (which can raise). -/
structure RagEnv where
  settings : RagSettings
  searchFn : String → Nat → Option Filters → Except String RawRes
  crossEncoder : Option (List (String × String) → Except String (List ℚ))

/-- `_format_results` (rag_service.py line 110): zip the three lists, skip
blank documents, compute `similarity = round(1 - dist, 4)`. -/
def format_results (res : RawRes) : List Doc :=
  if res.documents.isEmpty then []
  else
    (res.documents.zip (res.metadatas.zip res.distances)).filterMap
      (fun p =>
        if trimS p.1 = "" then none
        else some ⟨trimS p.1, p.2.1, p.2.2, round4 (1 - p.2.2), none⟩)

/-- Python `meta.get("facility_name") or meta.get("Name")` followed by the
truthiness test `if name`: `None` and `""` are both falsy. -/
def dedupName (m : Meta) : Option String :=
  match m.facility_name with
  | some s => if s = "" then
      (match m.nameKey with
       | some t => if t = "" then none else some t
       | none => none)
    else some s
  | none =>
    match m.nameKey with
    | some t => if t = "" then none else some t
    | none => none

/-- Loop of `_dedupe` with its `seen` set. -/
def dedupeAux (seen : List String) : List Doc → List Doc
  | [] => []
  | d :: rest =>
    match dedupName d.metadata with
    | some n =>
      if seen.contains n then dedupeAux seen rest
      else d :: dedupeAux (n :: seen) rest
    | none => dedupeAux seen rest

/-- `_dedupe` (rag_service.py line 132): keep the first document per facility
name; documents without a (truthy) name are dropped. -/
def dedupe (docs : List Doc) : List Doc :=
  dedupeAux [] docs

/-- The `(query, content)` pairs handed to the cross-encoder (line 146). -/
def rerankPairs (query : String) (docs : List Doc) : List (String × String) :=
  docs.map (fun d => (query, d.content))

/-- Sort key: `x["score"]` (always present on scored docs). -/
def scoreKey (d : Doc) : ℚ :=
  d.score.getD 0

/-- `scored.sort(key=..., reverse=True)`: stable descending sort. -/
def sortByScoreDesc (l : List Doc) : List Doc :=
  l.mergeSort (fun a b => decide (scoreKey b ≤ scoreKey a))

/-- `_rerank` (rag_service.py line 143): score all pairs, keep docs at or
above the similarity threshold with their score attached, sort descending,
truncate to `RERANK_TOP_K`; on any exception return `docs` unchanged. -/
def rerank (s : RagSettings)
    (predict : List (String × String) → Except String (List ℚ))
    (query : String) (docs : List Doc) : List Doc :=
  match predict (rerankPairs query docs) with
  | .error _ => docs
  | .ok scores =>
    let scored := (docs.zip scores).filterMap (fun p =>
      if s.SIMILARITY_THRESHOLD ≤ p.2
      then some { p.1 with score := some p.2 } else none)
    (sortByScoreDesc scored).take s.RERANK_TOP_K

/-- The rerank block of `search_and_rerank` (rag_service.py lines 89-99):
with a cross-encoder, use `_rerank` unless it comes back empty (then truncate
the deduplicated list); without one, truncate the deduplicated list. -/
def rerankStage (s : RagSettings)
    (crossEncoder : Option (List (String × String) → Except String (List ℚ)))
    (query : String) (unique_docs : List Doc) : List Doc :=
  match crossEncoder with
  | some enc =>
    let reranked := rerank s enc query unique_docs
    if reranked.isEmpty then unique_docs.take s.RERANK_TOP_K else reranked
  | none => unique_docs.take s.RERANK_TOP_K

/-- The body of the `try` block of `search_and_rerank` (rag_service.py lines
68-104); the only raising step is the vector search.  `top_k or MMR_TOP_K`
is falsy-aware: `top_k=0` also selects the default.  Multi-query expansion is
a TODO no-op in the source, so `queries = [query]`. -/
def searchBodyE (env : RagEnv) (query : String) (top_k : Option Nat)
    (filters : Option Filters) (_use_multi_query use_mmr : Bool) :
    Except String (List Doc) := do
  let k := match top_k with
    | some n => if n = 0 then env.settings.MMR_TOP_K else n
    | none => env.settings.MMR_TOP_K
  let queries := [query]
  let all_docs ← queries.foldlM (fun acc q => do
    let res ← env.searchFn q env.settings.TOP_K filters
    pure (acc ++ format_results res)) []
  let unique_docs := dedupe all_docs
  let unique_docs := rerankStage env.settings env.crossEncoder query unique_docs
  pure (if use_mmr then unique_docs.take k else unique_docs)

/-- `search_and_rerank` (rag_service.py line 53): the whole pipeline is
wrapped in `try/except` returning `[]` on any exception. -/
def search_and_rerank (env : RagEnv) (query : String) (top_k : Option Nat)
    (filters : Option Filters) (use_multi_query use_mmr : Bool) : List Doc :=
  match searchBodyE env query top_k filters use_multi_query use_mmr with
  | .ok docs => docs
  | .error _ => []

end RagService

namespace MapService

/-- One element of the parsed `markers_json` list; the keys the code reads
are `name`, `lat`, `lng`, `desc` (a missing key is `none`). -/
structure MarkerIn where
  name : Option String
  lat : Option ℚ
  lng : Option ℚ
  desc : Option String
deriving DecidableEq, Repr

/-- One marker of the result (`name`/`lat`/`lng`/`desc` all present). -/
structure MarkerOut where
  name : String
  lat : ℚ
  lng : ℚ
  desc : String
deriving DecidableEq, Repr

/-- A coordinate pair. -/
structure LatLng where
  lat : ℚ
  lng : ℚ
deriving DecidableEq, Repr

/-- The result shape of `get_map_markers`. -/
structure MapResult where
  center : LatLng
  markers : List MarkerOut
  link : String
  error : Option String
deriving DecidableEq, Repr

/-- The Seoul-city-hall fallback center (map_service.py line 38). -/
def fallbackCenter : LatLng :=
  ⟨(375665 : ℚ) / 10000, (1269780 : ℚ) / 10000⟩

/-- Reading `d[k]` on a dict: raises `KeyError` when the key is absent. -/
def keyRead (o : Option α) : Except String α :=
  match o with
  | some v => Except.ok v
  | none => Except.error "KeyError"

/-- A Python comprehension over a raising expression: map in `Except`,
stopping at the first raise. -/
def mapE {α β : Type} (f : α → Except String β) :
    List α → Except String (List β)
  | [] => Except.ok []
  | a :: rest => do
    let b ← f a
    let bs ← mapE f rest
    pure (b :: bs)

/-- The body of the non-empty branch of `get_map_markers` (map_service.py
lines 43-73): average the coordinates (raising on a missing key), build the
formatted markers, and template the Kakao link from the first marker.  The
float formatting inside the link is approximated by `toString` on ℚ; no
claim depends on it.  The three generator/loop traversals are named
`readLats`, `readLngs` and `formatMarkers`; `readLats` is the generator
expression `(m["lat"] for m in markers)`. -/
def readLats (markers : List MarkerIn) : Except String (List ℚ) :=
  mapE (fun m => keyRead m.lat) markers

/-- The generator expression `(m["lng"] for m in markers)`. -/
def readLngs (markers : List MarkerIn) : Except String (List ℚ) :=
  mapE (fun m => keyRead m.lng) markers

/-- The `formatted_markers` loop (map_service.py line 48). -/
def formatMarkers (markers : List MarkerIn) : Except String (List MarkerOut) :=
  mapE (fun (m : MarkerIn) => do
    let la ← keyRead m.lat
    let ln ← keyRead m.lng
    pure (⟨m.name.getD "Unknown", la, ln, m.desc.getD ""⟩ : MarkerOut)) markers

def mapBody (markers : List MarkerIn) : Except String MapResult := do
  let lats ← readLats markers
  let avg_lat := lats.sum / (markers.length : ℚ)
  let lngs ← readLngs markers
  let avg_lng := lngs.sum / (markers.length : ℚ)
  let formatted ← formatMarkers markers
  match markers with
  | [] => Except.error "unreachable: guarded by the caller"
  | first :: _ => do
    let fname ← keyRead first.name
    let fla ← keyRead first.lat
    let fln ← keyRead first.lng
    pure { center := ⟨round4 avg_lat, round4 avg_lng⟩,
           markers := formatted,
           link := "https://map.kakao.com/link/to/" ++ fname ++ ","
             ++ toString fla ++ "," ++ toString fln,
           error := none }

/-- `get_map_markers` (map_service.py line 14), taking the outcome of
`json.loads(markers_json)` as input: parse failure and any exception in the
body both fall back to the fixed center with an empty marker list; an empty
parsed list does so without an error note. -/
def get_map_markers (parsed : Except String (List MarkerIn)) : MapResult :=
  match parsed with
  | .error _ =>
    { center := fallbackCenter, markers := [], link := "",
      error := some "JSON 파싱 실패" }
  | .ok markers =>
    if markers.isEmpty then
      { center := fallbackCenter, markers := [], link := "", error := none }
    else
      match mapBody markers with
      | .ok r => r
      | .error e =>
        { center := fallbackCenter, markers := [], link := "",
          error := some e }

end MapService

namespace WeatherService

/-- The gazetteer tables imported from `data.location` (a module of the
repository outside `src/`); the resolver below is parametric in them, in
Python-dict insertion order. -/
structure Gazetteer where
  kma : List (String × String)
  dong : List (String × String)
  landmark : List (String × String)
  univ : List (String × String)
deriving Repr

/-- Python `table.get(key)`: exact-key lookup. -/
def exactGet (tbl : List (String × String)) (key : String) : Option String :=
  (tbl.find? (fun p => p.1 = key)).map (fun p => p.2)

/-- `KMA_LOCATION_CODES.get(city, "108")`. -/
def kmaGetD (g : Gazetteer) (city : String) : String :=
  (exactGet g.kma city).getD "108"

/-- `_extract_location_code` (weather_service.py line 105): strip, then
exact city / dong / landmark / university lookups, then substring matches
for city, dong and landmark (there is no substring layer for universities),
defaulting to the Seoul station code `"108"`. -/
def extract_location_code (g : Gazetteer) (location0 : String) : String :=
  let location := trimS location0
  match exactGet g.kma location with
  | some code => code
  | none =>
  match exactGet g.dong location with
  | some city => kmaGetD g city
  | none =>
  match exactGet g.landmark location with
  | some city => kmaGetD g city
  | none =>
  match exactGet g.univ location with
  | some city => kmaGetD g city
  | none =>
  match g.kma.find? (fun p => substrB p.1 location) with
  | some p => p.2
  | none =>
  match g.dong.find? (fun p => substrB p.1 location) with
  | some p => kmaGetD g p.2
  | none =>
  match g.landmark.find? (fun p => substrB p.1 location) with
  | some p => kmaGetD g p.2
  | none => "108"

/-- The layer outputs of `_extract_location_code` in their fixed priority
order, for stating the resolver as a first-match-wins lookup. -/
def layerResults (g : Gazetteer) (location : String) : List (Option String) :=
  [exactGet g.kma location,
   (exactGet g.dong location).map (kmaGetD g),
   (exactGet g.landmark location).map (kmaGetD g),
   (exactGet g.univ location).map (kmaGetD g),
   (g.kma.find? (fun p => substrB p.1 location)).map (fun p => p.2),
   (g.dong.find? (fun p => substrB p.1 location)).map (fun p => kmaGetD g p.2),
   (g.landmark.find? (fun p => substrB p.1 location)).map
     (fun p => kmaGetD g p.2)]

/-- The station-code resolver exactly as claim C10 words it, with a substring
layer for universities as well ("then substring matches of each"); written
from the claim for comparison with `extract_location_code`. -/
def extract_location_code_claim (g : Gazetteer) (location0 : String) :
    String :=
  let location := trimS location0
  (((layerResults g location) ++
    [(g.univ.find? (fun p => substrB p.1 location)).map
       (fun p => kmaGetD g p.2)]).findSome? id).getD "108"

/-- `round(x, 1)` on ℚ (the mock temperatures are exact multiples of 0.5,
so Python's half-to-even makes no difference on them). -/
def round1 (q : ℚ) : ℚ :=
  (round (q * 10) : ℤ) / 10

/-- The canonical weather object of the service (the dict returned by
`get_weather` / `_get_mock_weather`; an absent `error` key is `none`). -/
structure WeatherInfo where
  location : String
  status : String
  description : String
  temp : ℚ
  humidity : Nat
  wind_speed : ℚ
  rainfall : ℚ
  source : String
  error : Option String
deriving DecidableEq, Repr

/-- `_get_mock_weather` (weather_service.py line 270): the deterministic
time-of-day synthetic reading, with an optional error reason. -/
def get_mock_weather (location : String) (hour : Nat) (error : Option String) :
    WeatherInfo :=
  let td : ℚ × String :=
    if 6 ≤ hour ∧ hour < 12 then ⟨10 + ((hour : ℚ) - 6) * (3 / 2), "맑음 (아침)"⟩
    else if 12 ≤ hour ∧ hour < 18 then ⟨19 + ((hour : ℚ) - 12) / 2, "맑음 (낮)"⟩
    else if 18 ≤ hour ∧ hour < 24 then ⟨22 - ((hour : ℚ) - 18) * 2, "맑음 (저녁)"⟩
    else ⟨10 - (hour : ℚ) / 2, "맑음 (새벽)"⟩
  { location := location, status := "clear", description := td.2,
    temp := round1 td.1, humidity := 60, wind_speed := 3 / 2,
    rainfall := 0, source := "mock", error := error }

/-- Python `str.split()` (split on whitespace, dropping empty fields). -/
def splitWs (s : String) : List String :=
  (s.split Char.isWhitespace).filter (fun t => t ≠ "")

/-- Python `str.strip(chr)` for a single strip character. -/
def stripChar (c : Char) (s : String) : String :=
  String.mk (((s.data.dropWhile (fun x => x = c)).reverse.dropWhile
    (fun x => x = c)).reverse)

/-- `_parse_kma_xml_response` (weather_service.py line 176): split lines,
drop `#` headers, tokenize the first data line, read SKY/PRE/WF/RN_ST, and
derive the status; every internal failure degrades to the mock reading with
an error reason (Python `int(...)` is modelled by `String.toInt?`). -/
def parse_kma_response (xml_text location : String) (hour : Nat) :
    WeatherInfo :=
  let lines := (trimS xml_text).splitOn "\n"
  let data_lines := lines.filter (fun l => !(l.startsWith "#"))
  match data_lines with
  | [] => get_mock_weather location hour (some "데이터 없음")
  | first :: _ =>
    let parts := splitWs first
    if parts.length < 11 then
      get_mock_weather location hour (some "응답 형식 오류")
    else
      let sky_code := parts.getD 6 ""
      let pre_type := parts.getD 7 ""
      let wf := stripChar '"' (parts.getD 9 "")
      match (parts.getD 10 "").toInt? with
      | none => get_mock_weather location hour (some "파싱 오류")
      | some rain_prob =>
        let status :=
          if substrB "비" wf || pre_type = "WB06" then "rainy"
          else if substrB "눈" wf || pre_type = "WB07" then "snowy"
          else if substrB "흐림" wf || sky_code = "4" then "cloudy"
          else if substrB "구름" wf || sky_code = "2" || sky_code = "3"
            then "cloudy"
          else "clear"
        let temp : ℚ :=
          if 6 ≤ hour ∧ hour < 12 then 12
          else if 12 ≤ hour ∧ hour < 18 then 18
          else 10
        { location := location, status := status, description := wf,
          temp := temp, humidity := 60, wind_speed := 3 / 2,
          rainfall := (rain_prob : ℚ), source := "kma_api_hub", error := none }

/-- The outcome of the `requests.get` call. -/
inductive NetOutcome
  | timeout
  | httpError (code : Nat)
  | ok (body : String)
deriving DecidableEq, Repr

/-- The ambient state `get_weather` reads: config availability, the API key,
the network outcome, the current hour, and the gazetteer. -/
structure WeatherEnv where
  hasConfig : Bool
  apiKey : Option String
  net : NetOutcome
  hour : Nat
  gaz : Gazetteer

/-- `get_weather` (weather_service.py line 25): without config or a (truthy)
API key return the mock directly; otherwise resolve the station code and
call the API, degrading to the mock with an error reason on timeout, HTTP
error, or any parse failure.  The `target_date` argument is accepted but
never used by the source. -/
def get_weather (env : WeatherEnv) (location : String)
    (_target_date : Option String) : WeatherInfo :=
  if !env.hasConfig then get_mock_weather location env.hour none
  else
    match env.apiKey with
    | none => get_mock_weather location env.hour none
    | some key =>
      if key = "" then get_mock_weather location env.hour none
      else
        let _stn := extract_location_code env.gaz location
        match env.net with
        | .timeout => get_mock_weather location env.hour (some "API 타임아웃")
        | .httpError code =>
          get_mock_weather location env.hour (some ("HTTP " ++ toString code))
        | .ok body => parse_kma_response body location env.hour

end WeatherService

section Fixtures

open SessionManager AgentService Supervisor RagService MapService WeatherService

/-- A vector-store environment whose index is unreachable: every search
raises. -/
def envIndexDown : RagService.RagEnv :=
  { settings := RagService.defaultSettings,
    searchFn := fun _ _ _ => Except.error "index unreachable",
    crossEncoder := none }

/-- A cross-encoder whose `predict` always raises. -/
def encFail : List (String × String) → Except String (List ℚ) :=
  fun _ => Except.error "encoder failure"

/-- A cross-encoder returning fixed scores `[0.5, 0.1]`. -/
def encTwo : List (String × String) → Except String (List ℚ) :=
  fun _ => Except.ok [(1 : ℚ) / 2, (1 : ℚ) / 10]

/-- A deduplicated candidate doc with the given facility name. -/
def mkDoc (n : String) : RagService.Doc :=
  ⟨n, ⟨some n, none⟩, 0, 1, none⟩

/-- Eleven distinct deduplicated candidates (one more than the default
`RERANK_TOP_K = 10`). -/
def docsEleven : List RagService.Doc :=
  (List.range 11).map (fun i => mkDoc (toString i))

/-- Two deduplicated candidates. -/
def docsTwo : List RagService.Doc :=
  [mkDoc "a", mkDoc "b"]

/-- A history whose most recent user turn names Busan. -/
def histBusan : List Msg :=
  [⟨"user", "부산 여행 중이야"⟩]

/-- A history with a prior search turn and its stored results. -/
def histGangnam : List Msg :=
  [⟨"user", "강남 놀이터 찾아줘"⟩, ⟨"ai", "추천 결과: 서울숲 공원"⟩]

/-- A marker entry with a full coordinate pair. -/
def goodMarker : MapService.MarkerIn :=
  ⟨some "공원", some ((375 : ℚ) / 10), some 127, none⟩

/-- A marker entry with no resolvable coordinate pair. -/
def badMarker : MapService.MarkerIn :=
  ⟨some "B", none, none, none⟩

/-- A weather environment with config and key present whose network call
times out at 9 a.m. -/
def envTimeout : WeatherService.WeatherEnv :=
  { hasConfig := true, apiKey := some "k", net := WeatherService.NetOutcome.timeout,
    hour := 9, gaz := ⟨[], [], [], []⟩ }

/-- A gazetteer whose university table maps 한양대 to 부산 (station `"159"`),
with no dong or landmark entries. -/
def gazUniv : WeatherService.Gazetteer :=
  ⟨[("서울", "108"), ("부산", "159")], [], [], [("한양대", "부산")]⟩

end Fixtures

/-- C8: saving a non-empty history for a conversation id and loading it back
yields exactly the saved list, order and role tags included. -/
theorem session_roundtrip (st : SessionManager.SessionState)
    (conversation_id : String) (h : List Msg) (_hne : h ≠ []) :
    SessionManager.get_history
      (SessionManager.save_history st conversation_id h) conversation_id = h := by
  simp [SessionManager.get_history, SessionManager.save_history]

/-- Witness for C8 at a concrete store, id and one-message history. -/
theorem session_roundtrip_witness :
    ([⟨"user", "안녕"⟩] : List Msg) ≠ [] ∧
      SessionManager.get_history
        (SessionManager.save_history SessionManager.emptyState "c1"
          [⟨"user", "안녕"⟩]) "c1" = [⟨"user", "안녕"⟩] :=
  ⟨by decide, session_roundtrip SessionManager.emptyState "c1" _ (by decide)⟩

/-- C9: loading an id with no stored history yields `[]`; clearing removes
both the history and the cached location of that id, clearing leaves the
cleared id unreadable (`[]` again), and clearing is idempotent. -/
theorem session_clear_total (st : SessionManager.SessionState) (id : String) :
    (st.sessions id = none → SessionManager.get_history st id = []) ∧
    (SessionManager.clear_history st id).sessions id = none ∧
    (SessionManager.clear_history st id).location_cache id = none ∧
    SessionManager.get_history (SessionManager.clear_history st id) id = [] ∧
    SessionManager.clear_history (SessionManager.clear_history st id) id =
      SessionManager.clear_history st id := by
  refine ⟨fun h => ?_, ?_, ?_, ?_, ?_⟩
  · simp [SessionManager.get_history, h]
  · simp [SessionManager.clear_history]
  · simp [SessionManager.clear_history]
  · simp [SessionManager.get_history, SessionManager.clear_history]
  · simp only [SessionManager.clear_history]
    congr 1 <;> funext k <;> by_cases hk : k = id <;> simp [hk]

/-- Witness for C9 at a concrete store and id. -/
theorem session_clear_total_witness :
    ((SessionManager.emptyState.sessions "x" = none →
        SessionManager.get_history SessionManager.emptyState "x" = []) ∧
      (SessionManager.clear_history SessionManager.emptyState "x").sessions "x"
          = none ∧
      (SessionManager.clear_history SessionManager.emptyState "x").location_cache
          "x" = none ∧
      SessionManager.get_history
          (SessionManager.clear_history SessionManager.emptyState "x") "x" = [] ∧
      SessionManager.clear_history
          (SessionManager.clear_history SessionManager.emptyState "x") "x" =
        SessionManager.clear_history SessionManager.emptyState "x") :=
  session_clear_total SessionManager.emptyState "x"

/-- C1: if any stage of the search pipeline raises (the `try` body evaluates
to an exception), `search_and_rerank` returns the empty list instead of
propagating the error. -/
theorem rag_search_catches_failures (env : RagService.RagEnv) (query : String)
    (top_k : Option Nat) (filters : Option RagService.Filters)
    (use_multi_query use_mmr : Bool) (e : String)
    (hfail : RagService.searchBodyE env query top_k filters use_multi_query
      use_mmr = Except.error e) :
    RagService.search_and_rerank env query top_k filters use_multi_query
      use_mmr = [] := by
  simp [RagService.search_and_rerank, hfail]

/-- Witness for C1: with the vector index unreachable the body raises and the
call returns `[]`. -/
theorem rag_search_catches_failures_witness :
    RagService.searchBodyE envIndexDown "놀이터" none none true true =
        Except.error "index unreachable" ∧
      RagService.search_and_rerank envIndexDown "놀이터" none none true true
        = [] :=
  ⟨rfl, rag_search_catches_failures envIndexDown "놀이터" none none true true
    "index unreachable" rfl⟩

/-- C2 counterexample: with the default settings (`RERANK_TOP_K = 10`) and a
deduplicated list of 11 candidates, a raising cross-encoder makes the rerank
stage return all 11 documents unchanged — more than `RERANK_TOP_K`, and not
the `RERANK_TOP_K`-truncation of the deduplicated list either. -/
theorem rerank_cap_claim_cex :
    RagService.rerankStage RagService.defaultSettings (some encFail) "q"
        docsEleven = docsEleven ∧
      RagService.defaultSettings.RERANK_TOP_K <
        (RagService.rerankStage RagService.defaultSettings (some encFail) "q"
          docsEleven).length ∧
      (∀ d ∈ RagService.rerankStage RagService.defaultSettings (some encFail)
          "q" docsEleven, d.score = none) ∧
      RagService.rerankStage RagService.defaultSettings (some encFail) "q"
          docsEleven ≠
        docsEleven.take RagService.defaultSettings.RERANK_TOP_K := by
  refine ⟨rfl, by decide, by decide, by decide⟩

/-- C2 amended: when the cross-encoder scores successfully, the rerank stage
returns at most `RERANK_TOP_K` documents and either every returned document
carries a score at least `SIMILARITY_THRESHOLD`, or (all candidates were
filtered out) the stage degrades to the `RERANK_TOP_K`-truncation of the
deduplicated list; when the cross-encoder raises, the stage returns the
deduplicated list unchanged — possibly longer than `RERANK_TOP_K`, with no
scores attached. -/
theorem rerank_stage_behavior (s : RagService.RagSettings)
    (enc : List (String × String) → Except String (List ℚ))
    (q : String) (docs : List RagService.Doc) :
    (∀ scores, enc (RagService.rerankPairs q docs) = Except.ok scores →
      (RagService.rerankStage s (some enc) q docs).length ≤ s.RERANK_TOP_K ∧
      ((∀ d ∈ RagService.rerankStage s (some enc) q docs,
          ∃ sc, d.score = some sc ∧ s.SIMILARITY_THRESHOLD ≤ sc) ∨
        RagService.rerankStage s (some enc) q docs =
          docs.take s.RERANK_TOP_K)) ∧
    (∀ e, enc (RagService.rerankPairs q docs) = Except.error e →
      RagService.rerankStage s (some enc) q docs = docs) := by
  constructor
  · intro scores hok
    have hr : RagService.rerank s enc q docs =
        (RagService.sortByScoreDesc
          ((docs.zip scores).filterMap (fun p =>
            if s.SIMILARITY_THRESHOLD ≤ p.2
            then some { p.1 with score := some p.2 } else none))).take
          s.RERANK_TOP_K := by
      simp [RagService.rerank, hok]
    by_cases hemp : (RagService.rerank s enc q docs).isEmpty
    · have hstage : RagService.rerankStage s (some enc) q docs =
          docs.take s.RERANK_TOP_K := by
        simp [RagService.rerankStage, hemp]
      rw [hstage]
      exact ⟨List.length_take_le _ _, Or.inr rfl⟩
    · have hstage : RagService.rerankStage s (some enc) q docs =
          RagService.rerank s enc q docs := by
        simp [RagService.rerankStage, hemp]
      rw [hstage, hr]
      refine ⟨List.length_take_le _ _, Or.inl ?_⟩
      intro d hd
      have hd1 := List.mem_of_mem_take hd
      rw [RagService.sortByScoreDesc, List.mem_mergeSort] at hd1
      obtain ⟨p, hp, hfp⟩ := List.mem_filterMap.mp hd1
      by_cases hθ : s.SIMILARITY_THRESHOLD ≤ p.2
      · rw [if_pos hθ] at hfp
        exact ⟨p.2, by rw [← Option.some.inj hfp], hθ⟩
      · rw [if_neg hθ] at hfp
        exact absurd hfp (by simp)
  · intro e herr
    cases docs with
    | nil => simp [RagService.rerankStage, RagService.rerank, herr]
    | cons d rest => simp [RagService.rerankStage, RagService.rerank, herr]

/-- Witness for the success branch of the amended C2 theorem at concrete
scores `[0.5, 0.1]` against the default threshold `0.3`. -/
theorem rerank_stage_behavior_witness :
    (RagService.rerankStage RagService.defaultSettings (some encTwo) "q"
        docsTwo).length ≤ RagService.defaultSettings.RERANK_TOP_K ∧
      ((∀ d ∈ RagService.rerankStage RagService.defaultSettings (some encTwo)
          "q" docsTwo, ∃ sc, d.score = some sc ∧
            RagService.defaultSettings.SIMILARITY_THRESHOLD ≤ sc) ∨
        RagService.rerankStage RagService.defaultSettings (some encTwo) "q"
            docsTwo =
          docsTwo.take RagService.defaultSettings.RERANK_TOP_K) :=
  (rerank_stage_behavior RagService.defaultSettings encTwo "q" docsTwo).1
    [(1 : ℚ) / 2, (1 : ℚ) / 10] rfl

/-- C3 counterexample: `analyze_user_query` classifies a 38-character query
as `emotion` (there is no length condition in that classifier), and the
supervisor's `_is_emotional_response` accepts a short query that contains
the action keyword 추천 (there is no action-keyword exclusion there). -/
theorem emotion_length_claim_cex :
    (AgentService.analyze_user_query
        "thank you so much for everything today" []).type = "emotion" ∧
      20 ≤ ("thank you so much for everything today" : String).length ∧
      Supervisor.is_emotional_response "좋아 추천해줘" = true ∧
      substrB "추천" "좋아 추천해줘" = true := by
  exact ⟨rfl, by decide, rfl, rfl⟩

/-- C3 amended: `analyze_user_query` returns `emotion` exactly when the
lower-cased query contains a gratitude keyword and no action keyword —
with no length condition; the length threshold of 20 characters exists only
in the supervisor's `_is_emotional_response`, which holds exactly when the
query is under 20 characters and contains an emotion keyword — with no
action-keyword exclusion. -/
theorem emotion_classifier_exact (q : String) (hist : List Msg) (qs : String) :
    ((AgentService.analyze_user_query q hist).type = "emotion" ↔
      (AgentService.emotion_keywords.any
          (fun k => substrB k (lowerStr q)) = true ∧
        AgentService.action_keywords.any
          (fun k => substrB k (lowerStr q)) = false)) ∧
    (Supervisor.is_emotional_response qs = true ↔
      (qs.length < 20 ∧
        ∃ kw ∈ Supervisor.EMOTION_KEYWORDS, substrB kw qs = true)) := by
  constructor
  · have key : (AgentService.analyze_user_query q hist).type = "emotion" ↔
        (AgentService.emotion_keywords.any (fun k => substrB k (lowerStr q)) &&
          !(AgentService.action_keywords.any
            (fun k => substrB k (lowerStr q)))) = true := by
      simp only [AgentService.analyze_user_query]
      by_cases hc : (AgentService.emotion_keywords.any
          (fun k => substrB k (lowerStr q)) &&
            !(AgentService.action_keywords.any
              (fun k => substrB k (lowerStr q)))) = true
      · rw [if_pos hc]
        simp [hc]
      · rw [if_neg hc]
        constructor
        · intro h
          exfalso
          revert h
          split <;> simp
        · intro h
          exact absurd h hc
    rw [key]
    simp [Bool.and_eq_true, Bool.not_eq_true']
  · simp [Supervisor.is_emotional_response, List.any_eq_true,
      decide_eq_true_eq, Bool.and_eq_true]

/-- C4 counterexample: with a location-free query, a history whose most
recent user turn names 부산, and cached location 서울, the supervisor
classifier resolves 서울 (it never scans the history), while the claimed
query-then-history-then-cache order would resolve 부산. -/
theorem location_order_claim_cex :
    (Supervisor.analyze_query "놀이터 추천해줘" histBusan
        (some "서울")).location = some "서울" ∧
      Supervisor.claim_resolve_location "놀이터 추천해줘" histBusan
          (some "서울") = some "부산" ∧
      (Supervisor.analyze_query "놀이터 추천해줘" histBusan
          (some "서울")).location ≠
        Supervisor.claim_resolve_location "놀이터 추천해줘" histBusan
          (some "서울") := by
  exact ⟨rfl, rfl, by decide⟩

/-- C4 amended: on non-emotional turns, `analyze_user_query` resolves the
location from the current query and then the history only (its result never
consults a cached location), and returns `need_location` exactly when both
yield nothing; `SupervisorService.analyze_query` resolves from the current
query and then the cached location only, never consults the history at all,
and sets `needs_location` exactly when both of its sources yield nothing. -/
theorem location_resolution_exact (q : String) (hist ctx ctx2 : List Msg)
    (cached : Option String)
    (hA : (AgentService.emotion_keywords.any
        (fun k => substrB k (lowerStr q)) &&
      !(AgentService.action_keywords.any
        (fun k => substrB k (lowerStr q)))) = false)
    (hS : Supervisor.is_emotional_response (trimS (lowerStr q)) = false) :
    ((AgentService.analyze_user_query q hist).location =
        (match AgentService.extract_location q with
         | some l => some l
         | none => AgentService.extract_location_from_history hist) ∧
      ((AgentService.analyze_user_query q hist).type = "need_location" ↔
        (match AgentService.extract_location q with
         | some l => some l
         | none => AgentService.extract_location_from_history hist) = none)) ∧
    ((Supervisor.analyze_query q ctx cached).location =
        (match Supervisor.sup_extract_location q with
         | some l => some l
         | none => cached) ∧
      ((Supervisor.analyze_query q ctx cached).needs_location = true ↔
        (match Supervisor.sup_extract_location q with
         | some l => some l
         | none => cached) = none) ∧
      Supervisor.analyze_query q ctx cached =
        Supervisor.analyze_query q ctx2 cached) := by
  constructor
  · have hbranch : AgentService.analyze_user_query q hist =
        (if (match AgentService.extract_location q with
             | some l => some l
             | none => AgentService.extract_location_from_history hist).isNone
         then ⟨"need_location", none, AgentService.extract_date q, false⟩
         else ⟨"ready",
           (match AgentService.extract_location q with
            | some l => some l
            | none => AgentService.extract_location_from_history hist),
           AgentService.extract_date q, false⟩ :
          AgentService.QueryAnalysis) := by
      simp [AgentService.analyze_user_query, hA]
    rw [hbranch]
    generalize (match AgentService.extract_location q with
      | some l => some l
      | none => AgentService.extract_location_from_history hist) = r
    cases r with
    | none => simp
    | some l => simp
  · have hbranch : Supervisor.analyze_query q ctx cached =
        (if (match Supervisor.sup_extract_location q with
             | some l => some l
             | none => cached).isNone
         then ⟨none, Supervisor.sup_extract_date q, [], true⟩
         else ⟨(match Supervisor.sup_extract_location q with
             | some l => some l
             | none => cached), Supervisor.sup_extract_date q,
           Supervisor.select_tools q
             (match Supervisor.sup_extract_location q with
              | some l => some l
              | none => cached) (Supervisor.sup_extract_date q), false⟩ :
          Supervisor.SupAnalysis) := by
      simp [Supervisor.analyze_query, hS]
    refine ⟨?_, ?_, rfl⟩ <;> rw [hbranch] <;>
      generalize (match Supervisor.sup_extract_location q with
        | some l => some l
        | none => cached) = r <;>
      cases r <;> simp

/-- Witness for C4 at a concrete non-emotional query: the agent classifier's
resolved location is query-then-history. -/
theorem location_resolution_exact_witness :
    (AgentService.analyze_user_query "놀이터 추천해줘" []).location =
      (match AgentService.extract_location "놀이터 추천해줘" with
       | some l => some l
       | none => AgentService.extract_location_from_history []) :=
  (location_resolution_exact "놀이터 추천해줘" [] [] histBusan (some "서울")
    rfl rfl).1.1

/-- Helper: a successful `mapE` run produces one output per input. -/
theorem mapE_ok_length {α β : Type} (f : α → Except String β) :
    ∀ (l : List α) (out : List β),
      MapService.mapE f l = Except.ok out → out.length = l.length := by
  intro l
  induction l with
  | nil =>
    intro out h
    simp [MapService.mapE] at h
    simp [← h]
  | cons a rest ih =>
    intro out h
    cases hfa : f a with
    | error e =>
      simp [MapService.mapE, hfa, Bind.bind, Except.bind] at h
    | ok b =>
      cases hrest : MapService.mapE f rest with
      | error e =>
        simp [MapService.mapE, hfa, hrest, Bind.bind, Except.bind,
          Functor.map, Except.map] at h
      | ok bs =>
        simp [MapService.mapE, hfa, hrest, Bind.bind, Except.bind,
          Functor.map, Except.map, Pure.pure, Except.pure] at h
        simp [← h, ih bs hrest]

/-- C6 counterexample: an input with one fully-resolvable entry and one
entry with no coordinates yields the fallback center and an empty marker
list — the resolvable entry is not kept, so bad entries are not skipped
individually. -/
theorem map_markers_skip_claim_cex :
    (MapService.get_map_markers
        (Except.ok [goodMarker, badMarker])).markers = [] ∧
      (MapService.get_map_markers
          (Except.ok [goodMarker, badMarker])).center =
        MapService.fallbackCenter ∧
      goodMarker.lat.isSome = true ∧ goodMarker.lng.isSome = true := by
  exact ⟨rfl, rfl, rfl, rfl⟩

/-- C6 amended: `get_map_markers` never raises, and on every input either
returns the fixed fallback center with an empty marker list (empty input,
parse failure, or any entry — or the first entry's name — failing to
resolve), or produces exactly one marker per input entry; in particular the
empty list maps to the fallback center with no markers and no error note. -/
theorem map_markers_total_fallback
    (input : Except String (List MapService.MarkerIn)) :
    (((MapService.get_map_markers input).center = MapService.fallbackCenter ∧
        (MapService.get_map_markers input).markers = []) ∨
      (∃ l, input = Except.ok l ∧
        (MapService.get_map_markers input).markers.length = l.length)) ∧
    MapService.get_map_markers (Except.ok []) =
      { center := MapService.fallbackCenter, markers := [], link := "",
        error := none } := by
  refine ⟨?_, rfl⟩
  cases input with
  | error e => exact Or.inl ⟨rfl, rfl⟩
  | ok l =>
    cases l with
    | nil => exact Or.inl ⟨rfl, rfl⟩
    | cons a rest =>
      cases hm : MapService.mapBody (a :: rest) with
      | error e =>
        left
        constructor <;> simp [MapService.get_map_markers, hm]
      | ok r =>
        right
        refine ⟨a :: rest, rfl, ?_⟩
        have hmarkers : (MapService.get_map_markers
            (Except.ok (a :: rest))).markers = r.markers := by
          simp [MapService.get_map_markers, hm]
        rw [hmarkers]
        unfold MapService.mapBody at hm
        cases h1 : MapService.readLats (a :: rest) with
        | error e => simp [h1, Bind.bind, Except.bind] at hm
        | ok lats =>
          cases h2 : MapService.readLngs (a :: rest) with
          | error e => simp [h1, h2, Bind.bind, Except.bind] at hm
          | ok lngs =>
            cases h3 : MapService.formatMarkers (a :: rest) with
            | error e => simp [h1, h2, h3, Bind.bind, Except.bind] at hm
            | ok formatted =>
              cases h4 : MapService.keyRead a.name with
              | error e =>
                simp [h1, h2, h3, h4, Bind.bind, Except.bind] at hm
              | ok fname =>
                cases h5 : MapService.keyRead a.lat with
                | error e =>
                  simp [h1, h2, h3, h4, h5, Bind.bind, Except.bind] at hm
                | ok fla =>
                  cases h6 : MapService.keyRead a.lng with
                  | error e =>
                    simp [h1, h2, h3, h4, h5, h6, Bind.bind, Except.bind,
                      Functor.map, Except.map] at hm
                  | ok fln =>
                    simp [h1, h2, h3, h4, h5, h6, Bind.bind, Except.bind,
                      Functor.map, Except.map, Pure.pure, Except.pure] at hm
                    subst hm
                    exact mapE_ok_length _ _ _ h3

/-- Helper: the KMA response parser either yields a live reading (source
`kma_api_hub`, no error) or degrades to the mock generator with an error
reason. -/
theorem parse_kma_cases (b location : String) (hour : Nat) :
    ((WeatherService.parse_kma_response b location hour).source =
        "kma_api_hub" ∧
      (WeatherService.parse_kma_response b location hour).error = none) ∨
    ∃ e, WeatherService.parse_kma_response b location hour =
      WeatherService.get_mock_weather location hour (some e) := by
  cases hdl : ((trimS b).splitOn "\n").filter (fun l => !(l.startsWith "#")) with
  | nil =>
    right
    exact ⟨"데이터 없음", by simp [WeatherService.parse_kma_response, hdl]⟩
  | cons first rest =>
    by_cases hlen : (WeatherService.splitWs first).length < 11
    · right
      exact ⟨"응답 형식 오류",
        by simp [WeatherService.parse_kma_response, hdl, hlen]⟩
    · cases hint : ((WeatherService.splitWs first)[10]?.getD "").toInt? with
      | none =>
        right
        exact ⟨"파싱 오류",
          by simp [WeatherService.parse_kma_response, hdl, hlen, hint]⟩
      | some rp =>
        left
        constructor <;>
          simp [WeatherService.parse_kma_response, hdl, hlen, hint]

/-- C7: with config and an API key present, `get_weather` carries a source
flag that is either the live `kma_api_hub` or the fallback `mock`; a timeout
or HTTP error returns exactly the deterministic time-of-day mock reading
annotated with the error reason, and an unparsable body likewise degrades to
the mock reading with an error reason instead of raising. -/
theorem weather_fallback_total (env : WeatherService.WeatherEnv)
    (location : String) (td : Option String) (k : String)
    (hc : env.hasConfig = true) (hk : env.apiKey = some k) (hk2 : k ≠ "") :
    ((WeatherService.get_weather env location td).source = "kma_api_hub" ∨
      (WeatherService.get_weather env location td).source = "mock") ∧
    (env.net = WeatherService.NetOutcome.timeout →
      WeatherService.get_weather env location td =
        WeatherService.get_mock_weather location env.hour
          (some "API 타임아웃")) ∧
    (∀ c, env.net = WeatherService.NetOutcome.httpError c →
      WeatherService.get_weather env location td =
        WeatherService.get_mock_weather location env.hour
          (some ("HTTP " ++ toString c))) ∧
    (∀ b, env.net = WeatherService.NetOutcome.ok b →
      ((WeatherService.get_weather env location td).source = "kma_api_hub" ∧
        (WeatherService.get_weather env location td).error = none) ∨
      ∃ e, WeatherService.get_weather env location td =
        WeatherService.get_mock_weather location env.hour (some e)) := by
  have hw : WeatherService.get_weather env location td =
      (match env.net with
       | WeatherService.NetOutcome.timeout =>
         WeatherService.get_mock_weather location env.hour
           (some "API 타임아웃")
       | WeatherService.NetOutcome.httpError code =>
         WeatherService.get_mock_weather location env.hour
           (some ("HTTP " ++ toString code))
       | WeatherService.NetOutcome.ok body =>
         WeatherService.parse_kma_response body location env.hour) := by
    simp [WeatherService.get_weather, hc, hk, hk2]
  refine ⟨?_, ?_, ?_, ?_⟩
  · cases hnet : env.net with
    | timeout =>
      have hg : WeatherService.get_weather env location td =
          WeatherService.get_mock_weather location env.hour
            (some "API 타임아웃") := by
        rw [hw, hnet]
      rw [hg]
      exact Or.inr rfl
    | httpError c =>
      have hg : WeatherService.get_weather env location td =
          WeatherService.get_mock_weather location env.hour
            (some ("HTTP " ++ toString c)) := by
        rw [hw, hnet]
      rw [hg]
      exact Or.inr rfl
    | ok b =>
      have hg : WeatherService.get_weather env location td =
          WeatherService.parse_kma_response b location env.hour := by
        rw [hw, hnet]
      rw [hg]
      rcases parse_kma_cases b location env.hour with h | ⟨e, h⟩
      · exact Or.inl h.1
      · rw [h]
        exact Or.inr rfl
  · intro hnet
    rw [hw, hnet]
  · intro c hnet
    rw [hw, hnet]
  · intro b hnet
    rw [hw, hnet]
    exact parse_kma_cases b location env.hour

/-- Witness for C7: a timeout with config and key present yields exactly the
9-o'clock mock reading annotated with the timeout reason. -/
theorem weather_fallback_total_witness :
    WeatherService.get_weather envTimeout "서울" none =
      WeatherService.get_mock_weather "서울" 9 (some "API 타임아웃") :=
  (weather_fallback_total envTimeout "서울" none "k" rfl rfl
    (by decide)).2.1 rfl

/-- C10 counterexample: a location strictly containing a university name
(and matching nothing else) resolves to the default `"108"`, not to the
university's city station `"159"` that the claimed university-substring
layer would produce. -/
theorem station_code_layers_claim_cex :
    WeatherService.extract_location_code gazUniv "한양대앞" = "108" ∧
      WeatherService.extract_location_code_claim gazUniv "한양대앞" = "159" ∧
      substrB "한양대" "한양대앞" = true ∧
      WeatherService.exactGet gazUniv.univ "한양대" = some "부산" := by
  exact ⟨rfl, rfl, rfl, rfl⟩

/-- C10 amended: the resolver is total and is exactly the first-match-wins
lookup through the seven layers (exact city, dong, landmark, university;
substring city, dong, landmark — no university substring layer), with
default `"108"` when no layer matches. -/
theorem station_code_layer_order (g : WeatherService.Gazetteer)
    (loc : String) :
    WeatherService.extract_location_code g loc =
      ((WeatherService.layerResults g (trimS loc)).findSome? id).getD "108" := by
  simp only [WeatherService.layerResults]
  cases h1 : WeatherService.exactGet g.kma (trimS loc) with
  | some c => simp [WeatherService.extract_location_code, h1]
  | none =>
  cases h2 : WeatherService.exactGet g.dong (trimS loc) with
  | some c => simp [WeatherService.extract_location_code, h1, h2]
  | none =>
  cases h3 : WeatherService.exactGet g.landmark (trimS loc) with
  | some c => simp [WeatherService.extract_location_code, h1, h2, h3]
  | none =>
  cases h4 : WeatherService.exactGet g.univ (trimS loc) with
  | some c => simp [WeatherService.extract_location_code, h1, h2, h3, h4]
  | none =>
  cases h5 : g.kma.find? (fun p => substrB p.1 (trimS loc)) with
  | some p => simp [WeatherService.extract_location_code, h1, h2, h3, h4, h5]
  | none =>
  cases h6 : g.dong.find? (fun p => substrB p.1 (trimS loc)) with
  | some p =>
    simp [WeatherService.extract_location_code, h1, h2, h3, h4, h5, h6]
  | none =>
  cases h7 : g.landmark.find? (fun p => substrB p.1 (trimS loc)) with
  | some p =>
    simp [WeatherService.extract_location_code, h1, h2, h3, h4, h5, h6, h7]
  | none =>
    simp [WeatherService.extract_location_code, h1, h2, h3, h4, h5, h6, h7]

/-- C5 counterexample: a map-intent query (지도 is a map keyword) with a
history holding a prior search turn and its results is classified `ready`,
not `show_map`: no `show_map` type exists in the code. -/
theorem show_map_claim_cex :
    Supervisor.MAP_KEYWORDS.any (fun k => substrB k "지도 보여줘") = true ∧
      (AgentService.analyze_user_query "지도 보여줘" histGangnam).type =
        "ready" ∧
      (AgentService.analyze_user_query "지도 보여줘" histGangnam).type ≠
        "show_map" := by
  exact ⟨rfl, rfl, by decide⟩

/-- C5 amended: the classifier's `type` only takes the three values
`emotion`, `need_location` and `ready`; a map-intent query is instead
handled by the supervisor's tool selection, which short-circuits to exactly
`["map"]` whenever the query contains a map keyword, regardless of the
session history. -/
theorem query_type_three_values (q : String) (hist : List Msg)
    (loc : Option String) (date : Option String) :
    ((AgentService.analyze_user_query q hist).type = "emotion" ∨
      (AgentService.analyze_user_query q hist).type = "need_location" ∨
      (AgentService.analyze_user_query q hist).type = "ready") ∧
    (Supervisor.MAP_KEYWORDS.any (fun k => substrB k q) = true →
      Supervisor.select_tools q loc date = ["map"]) := by
  constructor
  · simp only [AgentService.analyze_user_query]
    split
    · exact Or.inl rfl
    · split
      · exact Or.inr (Or.inl rfl)
      · exact Or.inr (Or.inr rfl)
  · intro h
    simp [Supervisor.select_tools, h]

/-- Witness for C5's amended map-keyword branch at a concrete query. -/
theorem query_type_three_values_witness :
    Supervisor.select_tools "지도 보여줘" (some "서울 강남") none = ["map"] :=
  (query_type_three_values "지도 보여줘" histGangnam (some "서울 강남")
    none).2 rfl
